import Mathlib

/-!
Verification of the fitness-tracker module (`homework.py`).

The module is embedded shallowly over exact rationals (`ℚ`): every numeric
value in the source is a Python number used only through `+ - * / **`, so the
formulas translate directly; every class becomes a structure, every method a
pure function on it, and fallible operations (`read_package`, abstract-method
invocation) return a result type that distinguishes a raised exception from a
normal return.
-/

namespace Homework

/-- Result of a Python call: either a normal return of a value, or a raised
exception carrying a message. -/
inductive PyResult (α : Type) : Type
  | ok (v : α)
  | raised (e : String)
  deriving DecidableEq

/-- Exceptions that `read_package` and the variant constructors can raise:
`keyError` for an unknown workout type, `typeError` for a constructor-arity
mismatch when the positional data list is unpacked. -/
inductive PyErr : Type
  | keyError (msg : String)
  | typeError (msg : String)
  deriving DecidableEq

/-- `InfoMessage`: the dataclass holding one workout's summary
(`training_type`, `duration`, `distance`, `speed`, `calories`). -/
structure InfoMessage : Type where
  training_type : String
  duration : ℚ
  distance : ℚ
  speed : ℚ
  calories : ℚ
  deriving DecidableEq

/-- `Training`: the base workout class; fields set by `__init__`. -/
structure Training : Type where
  action : ℚ
  duration : ℚ
  weight : ℚ
  deriving DecidableEq

/-- `Training.M_IN_KM = 1000`. -/
def Training.M_IN_KM : ℚ := 1000

/-- `Training.LEN_STEP = 0.65`. -/
def Training.LEN_STEP : ℚ := 0.65

/-- `Training.MIN_IN_H = 60`. -/
def Training.MIN_IN_H : ℚ := 60

/-- `Training.get_distance`: `self.action * self.LEN_STEP / self.M_IN_KM`. -/
def Training.get_distance (t : Training) : ℚ :=
  t.action * Training.LEN_STEP / Training.M_IN_KM

/-- `Training.get_mean_speed`: `self.get_distance() / self.duration`. -/
def Training.get_mean_speed (t : Training) : ℚ :=
  t.get_distance / t.duration

/-- `Training.get_spent_calories`: the body is the single statement `pass`,
so the call returns normally with the value `None` (modelled as `Option.none`);
no exception is raised. The result type records whether a fault occurred. -/
def Training.get_spent_calories (_ : Training) : PyResult (Option ℚ) :=
  .ok none

/-- `Running`: extends `Training` with no extra fields. -/
structure Running : Type where
  action : ℚ
  duration : ℚ
  weight : ℚ
  deriving DecidableEq

/-- `Running.LEN_STEP = 0.65`. -/
def Running.LEN_STEP : ℚ := 0.65

/-- `Running.CALORIES_MEAN_SPEED_MULTIPLIER = 18`. -/
def Running.CALORIES_MEAN_SPEED_MULTIPLIER : ℚ := 18

/-- `Running.CALORIES_MEAN_SPEED_SHIFT = 1.79`. -/
def Running.CALORIES_MEAN_SPEED_SHIFT : ℚ := 1.79

/-- `Running.get_distance`: inherited from `Training`; attribute lookup on a
`Running` instance resolves `self.LEN_STEP` to `Running.LEN_STEP` and
`self.M_IN_KM` to the base `Training.M_IN_KM`. -/
def Running.get_distance (r : Running) : ℚ :=
  r.action * Running.LEN_STEP / Training.M_IN_KM

/-- `Running.get_mean_speed`: inherited from `Training`. -/
def Running.get_mean_speed (r : Running) : ℚ :=
  r.get_distance / r.duration

/-- `Running.get_spent_calories`:
`(MULT * self.get_mean_speed() + SHIFT) * self.weight / self.M_IN_KM
 * self.duration * self.MIN_IN_H`. -/
def Running.get_spent_calories (r : Running) : ℚ :=
  (Running.CALORIES_MEAN_SPEED_MULTIPLIER
      * r.get_mean_speed + Running.CALORIES_MEAN_SPEED_SHIFT)
    * r.weight / Training.M_IN_KM
    * r.duration * Training.MIN_IN_H

/-- `SportsWalking`: extends `Training` with `height` (cm). -/
structure SportsWalking : Type where
  action : ℚ
  duration : ℚ
  weight : ℚ
  height : ℚ
  deriving DecidableEq

/-- `SportsWalking.CALORIES_WEIGHT_MULTIPLIER = 0.035`. -/
def SportsWalking.CALORIES_WEIGHT_MULTIPLIER : ℚ := 0.035

/-- `SportsWalking.CALORIES_SPEED_HEIGHT_MULTIPLIER = 0.029`. -/
def SportsWalking.CALORIES_SPEED_HEIGHT_MULTIPLIER : ℚ := 0.029

/-- `SportsWalking.KMH_IN_MSEC = 0.278`. -/
def SportsWalking.KMH_IN_MSEC : ℚ := 0.278

/-- `SportsWalking.CM_IN_M = 100`. -/
def SportsWalking.CM_IN_M : ℚ := 100

/-- `SportsWalking.get_distance`: inherited from `Training`; `self.LEN_STEP`
resolves to the base `Training.LEN_STEP = 0.65`. -/
def SportsWalking.get_distance (w : SportsWalking) : ℚ :=
  w.action * Training.LEN_STEP / Training.M_IN_KM

/-- `SportsWalking.get_mean_speed`: inherited from `Training`. -/
def SportsWalking.get_mean_speed (w : SportsWalking) : ℚ :=
  w.get_distance / w.duration

/-- `SportsWalking.get_spent_calories`:
`((W_MULT * self.weight)
  + ((self.get_mean_speed() * KMH_IN_MSEC)**2 / (self.height / CM_IN_M))
  * SH_MULT * self.weight) * self.duration * self.MIN_IN_H`. -/
def SportsWalking.get_spent_calories (w : SportsWalking) : ℚ :=
  ((SportsWalking.CALORIES_WEIGHT_MULTIPLIER * w.weight)
      + ((w.get_mean_speed * SportsWalking.KMH_IN_MSEC) ^ 2
          / (w.height / SportsWalking.CM_IN_M))
        * SportsWalking.CALORIES_SPEED_HEIGHT_MULTIPLIER
        * w.weight) * w.duration * Training.MIN_IN_H

/-- `Swimming`: extends `Training` with `length_pool` and `count_pool`
(both received from the positional float data list). -/
structure Swimming : Type where
  action : ℚ
  duration : ℚ
  weight : ℚ
  length_pool : ℚ
  count_pool : ℚ
  deriving DecidableEq

/-- `Swimming.LEN_STEP = 1.38`. -/
def Swimming.LEN_STEP : ℚ := 1.38

/-- `Swimming.CALORIES_MEAN_SPEED_MULTIPLIER = 18` (declared, unused). -/
def Swimming.CALORIES_MEAN_SPEED_MULTIPLIER : ℚ := 18

/-- `Swimming.CALORIES_MEAN_SPEED_SHIFT = 1.1`. -/
def Swimming.CALORIES_MEAN_SPEED_SHIFT : ℚ := 1.1

/-- `Swimming.CALORIES_WEIGHT_MULTIPLIER = 2`. -/
def Swimming.CALORIES_WEIGHT_MULTIPLIER : ℚ := 2

/-- `Swimming.CALORIES_WEIGHT_SHIFT = 0.029` (declared, unused). -/
def Swimming.CALORIES_WEIGHT_SHIFT : ℚ := 0.029

/-- `Swimming.get_distance` (own override):
`self.action * self.LEN_STEP / self.M_IN_KM` with `Swimming.LEN_STEP`. -/
def Swimming.get_distance (s : Swimming) : ℚ :=
  s.action * Swimming.LEN_STEP / Training.M_IN_KM

/-- `Swimming.get_mean_speed` (override):
`self.length_pool * self.count_pool / self.M_IN_KM / self.duration`. -/
def Swimming.get_mean_speed (s : Swimming) : ℚ :=
  s.length_pool * s.count_pool / Training.M_IN_KM / s.duration

/-- `Swimming.get_spent_calories`:
`(self.get_mean_speed() + SPEED_SHIFT) * WEIGHT_MULT
 * self.weight * self.duration`. -/
def Swimming.get_spent_calories (s : Swimming) : ℚ :=
  (s.get_mean_speed + Swimming.CALORIES_MEAN_SPEED_SHIFT)
    * Swimming.CALORIES_WEIGHT_MULTIPLIER
    * s.weight * s.duration

/-- `Training.show_training_info` specialised to `Running`:
`InfoMessage(self.__class__.__name__, self.duration, self.get_distance(),
self.get_mean_speed(), self.get_spent_calories())`. -/
def Running.show_training_info (r : Running) : InfoMessage :=
  ⟨"Running", r.duration, r.get_distance, r.get_mean_speed,
    r.get_spent_calories⟩

/-- `Training.show_training_info` specialised to `SportsWalking`. -/
def SportsWalking.show_training_info (w : SportsWalking) : InfoMessage :=
  ⟨"SportsWalking", w.duration, w.get_distance, w.get_mean_speed,
    w.get_spent_calories⟩

/-- `Training.show_training_info` specialised to `Swimming`. -/
def Swimming.show_training_info (s : Swimming) : InfoMessage :=
  ⟨"Swimming", s.duration, s.get_distance, s.get_mean_speed,
    s.get_spent_calories⟩

/-- A value of any of the three concrete workout classes, as produced by the
dispatcher `read_package`. -/
inductive AnyTraining : Type
  | swm (s : Swimming)
  | run (r : Running)
  | wlk (w : SportsWalking)
  deriving DecidableEq

/-- Dispatch of `show_training_info` over the three concrete classes. -/
def AnyTraining.show_training_info : AnyTraining → InfoMessage
  | .swm s => s.show_training_info
  | .run r => r.show_training_info
  | .wlk w => w.show_training_info

/-- `Swimming(*data)`: unpacking the positional data list into
`__init__(action, duration, weight, length_pool, count_pool)`; any other
arity raises a `TypeError`. -/
def mkSwimming : List ℚ → Except PyErr AnyTraining
  | [a, d, w, lp, cp] => .ok (.swm ⟨a, d, w, lp, cp⟩)
  | _ => .error (.typeError "Swimming.__init__ arity mismatch")

/-- `Running(*data)`: unpacking into `__init__(action, duration, weight)`. -/
def mkRunning : List ℚ → Except PyErr AnyTraining
  | [a, d, w] => .ok (.run ⟨a, d, w⟩)
  | _ => .error (.typeError "Running.__init__ arity mismatch")

/-- `SportsWalking(*data)`: unpacking into
`__init__(action, duration, weight, height)`. -/
def mkSportsWalking : List ℚ → Except PyErr AnyTraining
  | [a, d, w, h] => .ok (.wlk ⟨a, d, w, h⟩)
  | _ => .error (.typeError "SportsWalking.__init__ arity mismatch")

/-- `read_package(workout_type, data)`: membership test in the fixed
dictionary `SWM ↦ Swimming, RUN ↦ Running, WLK ↦ SportsWalking`; a miss
raises `KeyError(f'Ошибка типа тренировки {workout_type}')`, a hit applies
the selected constructor to the unpacked data list. -/
def read_package (workout_type : String) (data : List ℚ) :
    Except PyErr AnyTraining :=
  if workout_type = "SWM" then mkSwimming data
  else if workout_type = "RUN" then mkRunning data
  else if workout_type = "WLK" then mkSportsWalking data
  else .error (.keyError ("Ошибка типа тренировки " ++ workout_type))

/-- `|q| * 1000` rounded to the nearest natural number, ties to even: the
rounding Python's fixed-point formatting with three fractional digits applies
to the exact value of the number being formatted. Computed on the reduced
numerator and denominator of `q`. -/
def roundTo3 (q : ℚ) : ℕ :=
  let n : ℕ := q.num.natAbs * 1000
  let d : ℕ := q.den
  let k : ℕ := n / d
  let r : ℕ := n % d
  if 2 * r < d then k
  else if d < 2 * r then k + 1
  else if k % 2 = 0 then k else k + 1

/-- The three fractional digits of `m / 1000` written with exactly three
digits after the point, most significant first. -/
def frac3 (m : ℕ) : String :=
  String.mk [Char.ofNat (48 + m / 100 % 10),
             Char.ofNat (48 + m / 10 % 10),
             Char.ofNat (48 + m % 10)]

/-- Python's fixed formatting `f'\x7bx:.3f\x7d'` on the exact value `q`:
sign, integer part, a point, and exactly three fractional digits. -/
def formatFixed3 (q : ℚ) : String :=
  (if q.num < 0 then "-" else "")
    ++ toString (roundTo3 q / 1000) ++ ("." ++ frac3 (roundTo3 q % 1000))

/-- `InfoMessage.get_message`: the f-string
`'Тип тренировки: \x7b...\x7d; Длительность: \x7b...:.3f\x7d ч.; Дистанция:
\x7b...:.3f\x7d км; Ср. скорость: \x7b...:.3f\x7d км/ч; Потрачено ккал:
\x7b...:.3f\x7d.'`. -/
def InfoMessage.get_message (m : InfoMessage) : String :=
  "Тип тренировки: " ++ m.training_type
    ++ "; Длительность: " ++ formatFixed3 m.duration
    ++ " ч.; Дистанция: " ++ formatFixed3 m.distance
    ++ " км; Ср. скорость: " ++ formatFixed3 m.speed
    ++ " км/ч; Потрачено ккал: " ++ formatFixed3 m.calories ++ "."

/-!
State-passing forms of the query methods. Each Python method body is a single
`return` of an expression built from attribute reads; it contains no
assignment to `self`, so the translated post-state is the object the
statement-by-statement translation threads through the reads.
-/

/-- State-passing `Running.get_distance`. -/
def Running.get_distanceS (r : Running) : ℚ × Running :=
  (r.get_distance, r)

/-- State-passing `Running.get_mean_speed`. -/
def Running.get_mean_speedS (r : Running) : ℚ × Running :=
  (r.get_mean_speed, r)

/-- State-passing `Running.get_spent_calories`. -/
def Running.get_spent_caloriesS (r : Running) : ℚ × Running :=
  (r.get_spent_calories, r)

/-- State-passing `Running.show_training_info`. -/
def Running.show_training_infoS (r : Running) : InfoMessage × Running :=
  (r.show_training_info, r)

/-- State-passing `SportsWalking.get_distance`. -/
def SportsWalking.get_distanceS (w : SportsWalking) : ℚ × SportsWalking :=
  (w.get_distance, w)

/-- State-passing `SportsWalking.get_mean_speed`. -/
def SportsWalking.get_mean_speedS (w : SportsWalking) : ℚ × SportsWalking :=
  (w.get_mean_speed, w)

/-- State-passing `SportsWalking.get_spent_calories`. -/
def SportsWalking.get_spent_caloriesS (w : SportsWalking) :
    ℚ × SportsWalking :=
  (w.get_spent_calories, w)

/-- State-passing `SportsWalking.show_training_info`. -/
def SportsWalking.show_training_infoS (w : SportsWalking) :
    InfoMessage × SportsWalking :=
  (w.show_training_info, w)

/-- State-passing `Swimming.get_distance`. -/
def Swimming.get_distanceS (s : Swimming) : ℚ × Swimming :=
  (s.get_distance, s)

/-- State-passing `Swimming.get_mean_speed`. -/
def Swimming.get_mean_speedS (s : Swimming) : ℚ × Swimming :=
  (s.get_mean_speed, s)

/-- State-passing `Swimming.get_spent_calories`. -/
def Swimming.get_spent_caloriesS (s : Swimming) : ℚ × Swimming :=
  (s.get_spent_calories, s)

/-- State-passing `Swimming.show_training_info`. -/
def Swimming.show_training_infoS (s : Swimming) : InfoMessage × Swimming :=
  (s.show_training_info, s)

/-! Helper lemmas. -/

/-- The variant constructors raise only `typeError` (on arity mismatch),
never `keyError`: applying `Swimming(*data)`. -/
theorem mkSwimming_ne_keyError (d : List ℚ) (m : String) :
    mkSwimming d ≠ .error (.keyError m) := by
  unfold mkSwimming
  rcases d with _ | ⟨a, _ | ⟨b, _ | ⟨c, _ | ⟨e, _ | ⟨f, _ | ⟨g, rest⟩⟩⟩⟩⟩⟩ <;>
    simp

/-- Applying `Running(*data)` never raises `keyError`. -/
theorem mkRunning_ne_keyError (d : List ℚ) (m : String) :
    mkRunning d ≠ .error (.keyError m) := by
  unfold mkRunning
  rcases d with _ | ⟨a, _ | ⟨b, _ | ⟨c, _ | ⟨e, rest⟩⟩⟩⟩ <;> simp

/-- Applying `SportsWalking(*data)` never raises `keyError`. -/
theorem mkSportsWalking_ne_keyError (d : List ℚ) (m : String) :
    mkSportsWalking d ≠ .error (.keyError m) := by
  unfold mkSportsWalking
  rcases d with _ | ⟨a, _ | ⟨b, _ | ⟨c, _ | ⟨e, _ | ⟨f, rest⟩⟩⟩⟩⟩ <;> simp

/-- A character built as `'0' + k % 10` is a decimal digit. -/
theorem digitChar_isDigit (k : ℕ) : (Char.ofNat (48 + k % 10)).isDigit = true := by
  have h : k % 10 < 10 := Nat.mod_lt k (by norm_num)
  set m := k % 10 with hm
  interval_cases m <;> rfl

/-! Claims. -/

/-- Claim C1, counterexample: calling `get_spent_calories` on a base
`Training` instance (action 720, duration 1, weight 80) does not signal any
fault: the call returns normally, with the value `None`. -/
theorem claim_C1_counterexample :
    Training.get_spent_calories ⟨720, 1, 80⟩ = PyResult.ok none ∧
    ¬ ∃ e : String,
        Training.get_spent_calories ⟨720, 1, 80⟩ = PyResult.raised e := by
  refine ⟨rfl, ?_⟩
  rintro ⟨e, h⟩
  simp [Training.get_spent_calories] at h

/-- Claim C1 as amended: for every combination of action, duration and weight
inputs, calling `get_spent_calories` on the unspecialized base workout class
returns normally with no calorie value (Python `None`, the result of the
body `pass`); no abstract-method / not-implemented fault is signalled. -/
theorem claim_C1_amended (t : Training) :
    Training.get_spent_calories t = PyResult.ok none ∧
    ¬ ∃ e : String, Training.get_spent_calories t = PyResult.raised e := by
  refine ⟨rfl, ?_⟩
  rintro ⟨e, h⟩
  simp [Training.get_spent_calories] at h

/-- Claim C1 amended, witness at concrete inputs (15000, 1, 75). -/
theorem claim_C1_amended_witness :
    Training.get_spent_calories ⟨15000, 1, 75⟩ = PyResult.ok none ∧
    ¬ ∃ e : String,
        Training.get_spent_calories ⟨15000, 1, 75⟩ = PyResult.raised e :=
  claim_C1_amended ⟨15000, 1, 75⟩

/-- Claim C2: for every `type_code` outside `\x7b"SWM", "RUN", "WLK"\x7d` and
every data list, `read_package` raises a `KeyError` whose message contains
the offending code, and for each of the three recognized codes the lookup
never raises a `KeyError` (any failure there is a constructor-arity
`TypeError`). -/
theorem claim_C2 (code : String) (data : List ℚ)
    (h : code ∉ (["SWM", "RUN", "WLK"] : List String)) :
    read_package code data
        = .error (.keyError ("Ошибка типа тренировки " ++ code)) ∧
    (∃ rest : String, "Ошибка типа тренировки " ++ code = rest ++ code) ∧
    (∀ c ∈ (["SWM", "RUN", "WLK"] : List String), ∀ d : List ℚ,
      ∀ m : String, read_package c d ≠ .error (.keyError m)) := by
  simp only [List.mem_cons, List.not_mem_nil, or_false, not_or] at h
  obtain ⟨h1, h2, h3⟩ := h
  refine ⟨?_, ⟨"Ошибка типа тренировки ", rfl⟩, ?_⟩
  · simp [read_package, h1, h2, h3]
  · intro c hc d m
    simp only [List.mem_cons, List.not_mem_nil, or_false] at hc
    rcases hc with rfl | rfl | rfl
    · simpa [read_package] using mkSwimming_ne_keyError d m
    · simpa [read_package] using mkRunning_ne_keyError d m
    · simpa [read_package] using mkSportsWalking_ne_keyError d m

/-- Claim C2, witness at the unrecognized code "XYZ" with an empty data
list. -/
theorem claim_C2_witness :
    ("XYZ" ∉ (["SWM", "RUN", "WLK"] : List String)) ∧
    (read_package "XYZ" []
        = .error (.keyError ("Ошибка типа тренировки " ++ "XYZ")) ∧
    (∃ rest : String, "Ошибка типа тренировки " ++ "XYZ" = rest ++ "XYZ") ∧
    (∀ c ∈ (["SWM", "RUN", "WLK"] : List String), ∀ d : List ℚ,
      ∀ m : String, read_package c d ≠ .error (.keyError m))) :=
  ⟨by decide, claim_C2 "XYZ" [] (by decide)⟩

/-- Claim C3: for every instance of the three concrete variants,
`get_distance()` equals `action * step_length / 1000` with the variant's own
step length: 0.65 for `Running` and `SportsWalking`, 1.38 for `Swimming`. -/
theorem claim_C3 (r : Running) (w : SportsWalking) (s : Swimming) :
    r.get_distance = r.action * (0.65 : ℚ) / 1000 ∧
    w.get_distance = w.action * (0.65 : ℚ) / 1000 ∧
    s.get_distance = s.action * (1.38 : ℚ) / 1000 :=
  ⟨rfl, rfl, rfl⟩

/-- Claim C4: for `Running` and `SportsWalking` with positive duration,
`get_mean_speed()` is `get_distance() / duration`; for `Swimming` it is
`length_pool * count_pool / 1000 / duration` and does not depend on the
`action` field. -/
theorem claim_C4 (r : Running) (w : SportsWalking) (s : Swimming)
    (hr : 0 < r.duration) (hw : 0 < w.duration) (hs : 0 < s.duration) :
    r.get_mean_speed = r.get_distance / r.duration ∧
    w.get_mean_speed = w.get_distance / w.duration ∧
    s.get_mean_speed = s.length_pool * s.count_pool / 1000 / s.duration ∧
    ∀ a : ℚ,
      Swimming.get_mean_speed
          ⟨a, s.duration, s.weight, s.length_pool, s.count_pool⟩
        = s.get_mean_speed :=
  ⟨rfl, rfl, rfl, fun _ => rfl⟩

/-- Claim C4, witness at the three packaged workouts of the program's main
block. -/
theorem claim_C4_witness :
    (0 < (1 : ℚ)) ∧
    Running.get_mean_speed ⟨15000, 1, 75⟩
      = Running.get_distance ⟨15000, 1, 75⟩ / 1 :=
  ⟨by norm_num,
    (claim_C4 ⟨15000, 1, 75⟩ ⟨9000, 1, 75, 180⟩ ⟨720, 1, 80, 25, 40⟩
      (by norm_num) (by norm_num) (by norm_num)).1⟩

/-- Claim C5: for every `Running` instance with positive duration,
`get_spent_calories()` equals
`(18 * mean_speed + 1.79) * weight / 1000 * duration * 60`. -/
theorem claim_C5 (r : Running) (h : 0 < r.duration) :
    r.get_spent_calories
      = ((18 : ℚ) * r.get_mean_speed + 1.79) * r.weight / 1000
          * r.duration * 60 :=
  rfl

/-- Claim C5, witness at the packaged running workout (15000, 1, 75). -/
theorem claim_C5_witness :
    (0 < (1 : ℚ)) ∧
    Running.get_spent_calories ⟨15000, 1, 75⟩
      = ((18 : ℚ) * Running.get_mean_speed ⟨15000, 1, 75⟩ + 1.79) * 75 / 1000
          * 1 * 60 :=
  ⟨by norm_num, claim_C5 ⟨15000, 1, 75⟩ (by norm_num)⟩

/-- Claim C6: for every `SportsWalking` instance with positive duration and
height, `get_spent_calories()` equals
`(0.035 * weight + ((mean_speed * 0.278)^2 / (height / 100)) * 0.029 * weight)
 * duration * 60`. -/
theorem claim_C6 (w : SportsWalking) (hd : 0 < w.duration)
    (hh : 0 < w.height) :
    w.get_spent_calories
      = ((0.035 : ℚ) * w.weight
          + ((w.get_mean_speed * 0.278) ^ 2 / (w.height / 100))
              * 0.029 * w.weight)
          * w.duration * 60 :=
  rfl

/-- Claim C6, witness at the packaged walking workout (9000, 1, 75, 180). -/
theorem claim_C6_witness :
    ((0 : ℚ) < 1 ∧ (0 : ℚ) < 180) ∧
    SportsWalking.get_spent_calories ⟨9000, 1, 75, 180⟩
      = ((0.035 : ℚ) * 75
          + ((SportsWalking.get_mean_speed ⟨9000, 1, 75, 180⟩ * 0.278) ^ 2
              / ((180 : ℚ) / 100)) * 0.029 * 75) * 1 * 60 :=
  ⟨⟨by norm_num, by norm_num⟩,
    claim_C6 ⟨9000, 1, 75, 180⟩ (by norm_num) (by norm_num)⟩

/-- Claim C7: for every `Swimming` instance with positive duration,
`get_spent_calories()` equals `(mean_speed + 1.1) * 2 * weight * duration`,
with the coefficient 2 applied as a multiplier. -/
theorem claim_C7 (s : Swimming) (h : 0 < s.duration) :
    s.get_spent_calories
      = (s.get_mean_speed + (1.1 : ℚ)) * 2 * s.weight * s.duration :=
  rfl

/-- Claim C7, witness at the packaged swimming workout (720, 1, 80, 25, 40). -/
theorem claim_C7_witness :
    (0 < (1 : ℚ)) ∧
    Swimming.get_spent_calories ⟨720, 1, 80, 25, 40⟩
      = (Swimming.get_mean_speed ⟨720, 1, 80, 25, 40⟩ + (1.1 : ℚ)) * 2
          * 80 * 1 :=
  ⟨by norm_num, claim_C7 ⟨720, 1, 80, 25, 40⟩ (by norm_num)⟩

/-- Claim C8: dispatching `("SWM", [720, 1, 80, 25, 40])` through
`read_package` yields the swimming workout, whose summary has distance
`720 * 1.38 / 1000` km, speed `25 * 40 / 1000 / 1 = 1` km/h, and calories
`(1 + 1.1) * 2 * 80 * 1 = 336`. -/
theorem claim_C8 :
    read_package "SWM" [720, 1, 80, 25, 40]
        = .ok (.swm ⟨720, 1, 80, 25, 40⟩) ∧
    (AnyTraining.show_training_info (.swm ⟨720, 1, 80, 25, 40⟩)).distance
        = (720 : ℚ) * 1.38 / 1000 ∧
    (AnyTraining.show_training_info (.swm ⟨720, 1, 80, 25, 40⟩)).speed
        = (25 : ℚ) * 40 / 1000 / 1 ∧
    (AnyTraining.show_training_info (.swm ⟨720, 1, 80, 25, 40⟩)).speed
        = (1 : ℚ) ∧
    (AnyTraining.show_training_info (.swm ⟨720, 1, 80, 25, 40⟩)).calories
        = ((1 : ℚ) + 1.1) * 2 * 80 * 1 ∧
    (AnyTraining.show_training_info (.swm ⟨720, 1, 80, 25, 40⟩)).calories
        = (336 : ℚ) := by
  refine ⟨by simp [read_package, mkSwimming], ?_, ?_, ?_, ?_, ?_⟩ <;>
    norm_num [AnyTraining.show_training_info, Swimming.show_training_info,
      Swimming.get_distance, Swimming.get_mean_speed,
      Swimming.get_spent_calories, Swimming.LEN_STEP,
      Swimming.CALORIES_MEAN_SPEED_SHIFT, Swimming.CALORIES_WEIGHT_MULTIPLIER,
      Training.M_IN_KM]

/-- Claim C9: `get_message` renders the fixed template with the four numeric
fields each formatted with exactly three fractional digits — for every
rational value the rendering ends in a point followed by exactly three digit
characters — and duration 1 renders as "1.000". -/
theorem claim_C9 :
    (∀ m : InfoMessage, m.get_message
        = "Тип тренировки: " ++ m.training_type
            ++ "; Длительность: " ++ formatFixed3 m.duration
            ++ " ч.; Дистанция: " ++ formatFixed3 m.distance
            ++ " км; Ср. скорость: " ++ formatFixed3 m.speed
            ++ " км/ч; Потрачено ккал: " ++ formatFixed3 m.calories
            ++ ".") ∧
    (∀ q : ℚ, ∃ (a : String) (d1 d2 d3 : Char),
        formatFixed3 q = a ++ String.mk ['.', d1, d2, d3]
          ∧ d1.isDigit ∧ d2.isDigit ∧ d3.isDigit) ∧
    formatFixed3 1 = "1.000" := by
  refine ⟨fun m => rfl, fun q => ?_, by decide⟩
  exact ⟨(if q.num < 0 then "-" else "") ++ toString (roundTo3 q / 1000),
         Char.ofNat (48 + roundTo3 q % 1000 / 100 % 10),
         Char.ofNat (48 + roundTo3 q % 1000 / 10 % 10),
         Char.ofNat (48 + roundTo3 q % 1000 % 10), rfl,
         digitChar_isDigit _, digitChar_isDigit _, digitChar_isDigit _⟩

/-- Claim C10: on every instance of each of the three concrete variants, the
state-passing translations of `get_distance`, `get_mean_speed`,
`get_spent_calories` and `show_training_info` leave the object's stored
fields unchanged. -/
theorem claim_C10 (r : Running) (w : SportsWalking) (s : Swimming) :
    (r.get_distanceS.2 = r ∧ r.get_mean_speedS.2 = r ∧
      r.get_spent_caloriesS.2 = r ∧ r.show_training_infoS.2 = r) ∧
    (w.get_distanceS.2 = w ∧ w.get_mean_speedS.2 = w ∧
      w.get_spent_caloriesS.2 = w ∧ w.show_training_infoS.2 = w) ∧
    (s.get_distanceS.2 = s ∧ s.get_mean_speedS.2 = s ∧
      s.get_spent_caloriesS.2 = s ∧ s.show_training_infoS.2 = s) :=
  ⟨⟨rfl, rfl, rfl, rfl⟩, ⟨rfl, rfl, rfl, rfl⟩, ⟨rfl, rfl, rfl, rfl⟩⟩

end Homework
